import Mathlib

/-!
Shallow embedding of the python-gssapi name-handle module (`names.pyx`,
given as `src/unnamed/part_000`) and the status-decoding module
(`src/gssapi/raw/misc.pyx`).

The mechanism provider (the native GSSAPI C library) is an external
collaborator; it is modelled as a structure of uninterpreted functions
giving, for each input, the major status, minor status, and output data
of each primitive.  Raw `gss_name_t` values are modelled as `Nat`, with
`0` playing the role of the `GSS_C_NO_NAME` / `NULL` sentinel; raw OIDs
are likewise `Nat` with `0` for `GSS_C_NO_OID`; buffers exchanged with
the provider are uninterpreted and modelled as `String`.

Side effects that the claims talk about are made explicit in return
values: each wrapper returns, besides its result, the final state of any
by-reference handle and the list of raw handle values (resp. query
argument triples) on which the provider primitive was invoked during the
call.
-/

namespace PyGssapi

/-- `GSS_S_COMPLETE`, the success major status, is numerically `0`. -/
def GSS_S_COMPLETE : Nat := 0

/-- `GSS_C_NO_NAME` (a `NULL` `gss_name_t`), modelled as the raw value `0`. -/
def GSS_C_NO_NAME : Nat := 0

/-- `GSS_C_NO_OID` (a `NULL` `gss_OID`), modelled as the raw value `0`. -/
def GSS_C_NO_OID : Nat := 0

/-- `GSS_C_GSS_CODE`: the `status_type` for a major code. -/
def GSS_C_GSS_CODE : Nat := 1

/-- `GSS_C_MECH_CODE`: the `status_type` for a minor code. -/
def GSS_C_MECH_CODE : Nat := 2

/-- The `Name` cdef class of `names.pyx`: a wrapper around one raw
`gss_name_t` field `raw_name`. -/
structure Name where
  raw_name : Nat
deriving Repr, DecidableEq

/-- The `(maj_code, min_code)` pair carried by a raised `GSSError`.
The full message machinery of `misc.pyx` is modelled separately below;
for the name operations only the two codes matter. -/
structure GSSErrorCodes where
  maj_code : Nat
  min_code : Nat
deriving Repr, DecidableEq

/-- The mechanism provider primitives consumed by `names.pyx`, as
uninterpreted functions of their inputs.  `rel*` model
`gss_release_name` on a raw name value; `cmp*` model `gss_compare_name`
on two raw name values (`cmpEq` is the C `int is_equal` output); `dn*`
model `gss_display_name` on a raw name value together with the flag
saying whether a non-NULL `output_name_type` pointer was supplied
(`dnType` is the OID the provider writes when asked, `0` standing for
`GSS_C_NO_OID`). -/
structure NameProvider where
  relMaj : Nat → Nat
  relMin : Nat → Nat
  cmpMaj : Nat → Nat → Nat
  cmpMin : Nat → Nat → Nat
  cmpEq : Nat → Nat → Int
  dnMaj : Nat → Bool → Nat
  dnMin : Nat → Bool → Nat
  dnText : Nat → String
  dnType : Nat → Nat

/-- `Name.__cinit__(self, Name cpy=None)`: with a `cpy` argument the new
wrapper takes `cpy.raw_name` and `cpy.raw_name` is set to
`GSS_C_NO_NAME`; otherwise the new wrapper starts at `GSS_C_NO_NAME`.
Returns the new wrapper and the post-call state of `cpy`. -/
def Name.cinit (cpy : Option Name) : Name × Option Name :=
  match cpy with
  | some c => (⟨c.raw_name⟩, some ⟨GSS_C_NO_NAME⟩)
  | none => (⟨GSS_C_NO_NAME⟩, none)

/-- `Name.__dealloc__`: if `raw_name` is not `GSS_C_NO_NAME`, call
`gss_release_name(&min_stat, &self.raw_name)`; if that does not return
`GSS_S_COMPLETE`, raise `GSSError(maj_stat, min_stat)` (reaching the
`raise` *before* the `self.raw_name = NULL` reset, so the field keeps
the value the provider left — RFC 2744 leaves the name intact on a
failed release); on success set `raw_name = NULL`.  Returns (raised
error if any, post-call state of `self`, raw values passed to the
provider release primitive). -/
def Name.dealloc (p : NameProvider) (self : Name) :
    Option GSSErrorCodes × Name × List Nat :=
  if self.raw_name ≠ GSS_C_NO_NAME then
    let maj_stat := p.relMaj self.raw_name
    let min_stat := p.relMin self.raw_name
    if maj_stat ≠ GSS_S_COMPLETE then
      (some ⟨maj_stat, min_stat⟩, self, [self.raw_name])
    else
      (none, ⟨GSS_C_NO_NAME⟩, [self.raw_name])
  else
    (none, self, [])

/-- `release_name(Name name not None)` of `names.pyx`: unconditionally
calls `gss_release_name(&min_stat, &name.raw_name)` (there is no
sentinel check in this function); raises on non-`GSS_S_COMPLETE`
(again before the `name.raw_name = NULL` line), otherwise sets
`raw_name = NULL`.  Returns (raised error if any, post-call state of
`name`, raw values passed to the provider release primitive). -/
def release_name (p : NameProvider) (name : Name) :
    Option GSSErrorCodes × Name × List Nat :=
  let maj_stat := p.relMaj name.raw_name
  let min_stat := p.relMin name.raw_name
  if maj_stat ≠ GSS_S_COMPLETE then
    (some ⟨maj_stat, min_stat⟩, name, [name.raw_name])
  else
    (none, ⟨GSS_C_NO_NAME⟩, [name.raw_name])

/-- `compare_name(Name name1=None, Name name2=None)`: both `None` gives
`True`, exactly one `None` gives `False`, otherwise delegate to
`gss_compare_name` and return `<bint>is_equal` on success or raise.
The second component counts invocations of the provider compare
primitive during the call. -/
def compare_name (p : NameProvider) (name1 name2 : Option Name) :
    Except GSSErrorCodes Bool × Nat :=
  match name1, name2 with
  | none, none => (.ok true, 0)
  | none, some _ => (.ok false, 0)
  | some _, none => (.ok false, 0)
  | some n1, some n2 =>
    let maj_stat := p.cmpMaj n1.raw_name n2.raw_name
    let min_stat := p.cmpMin n1.raw_name n2.raw_name
    if maj_stat = GSS_S_COMPLETE then
      (.ok (decide (p.cmpEq n1.raw_name n2.raw_name ≠ 0)), 1)
    else
      (.error ⟨maj_stat, min_stat⟩, 1)

/-- The `DisplayNameResult` named tuple: the text of the name and its
(optional) name type OID. -/
structure DisplayNameResult where
  text : String
  name_type : Option Nat
deriving Repr, DecidableEq

/-- `display_name(Name name not None, name_type=True)`: when `name_type`
is falsy the `output_name_type` pointer passed to the provider is NULL;
on `GSS_S_COMPLETE` the text is returned and the python name type is
`None` unless `name_type` was requested and the provider wrote an OID
other than `GSS_C_NO_OID`; otherwise raise.  The second component
records whether a non-NULL `output_name_type` pointer was passed to the
provider (i.e. whether it was asked to produce a type). -/
def display_name (p : NameProvider) (name : Name) (name_type : Bool) :
    Except GSSErrorCodes DisplayNameResult × Bool :=
  let asked := name_type
  let maj_stat := p.dnMaj name.raw_name asked
  let min_stat := p.dnMin name.raw_name asked
  if maj_stat = GSS_S_COMPLETE then
    let py_name_type : Option Nat :=
      if name_type then
        if p.dnType name.raw_name = GSS_C_NO_OID then none
        else some (p.dnType name.raw_name)
      else none
    (.ok ⟨p.dnText name.raw_name, py_name_type⟩, asked)
  else
    (.error ⟨maj_stat, min_stat⟩, asked)

/-! ### The status-decoding module (`misc.pyx`) -/

/-- The provider primitive `gss_display_status`, as uninterpreted
functions of `(status_value, status_type, mech_type, message_context)`:
major status, minor status, the message buffer written, and the
`message_context` value written back. -/
structure StatusProvider where
  dsMaj : Nat → Nat → Nat → Nat → Nat
  dsMin : Nat → Nat → Nat → Nat → Nat
  dsMsg : Nat → Nat → Nat → Nat → String
  dsCtx : Nat → Nat → Nat → Nat → Nat

/-- `display_status(error_code, is_major_code, mech_type=None,
message_context=0)`: converts `is_major_code` to `GSS_C_GSS_CODE` /
`GSS_C_MECH_CODE` and `mech_type=None` to `GSS_C_NO_OID`, calls
`gss_display_status`, and on `GSS_S_COMPLETE` returns
`(msg, msg_ctx_out, call_again)` where `call_again = bool(msg_ctx_out)`;
otherwise raises `GSSError(maj_stat, min_stat)`. -/
def display_status (p : StatusProvider) (error_code : Nat)
    (is_major_code : Bool) (mech_type : Option Nat)
    (message_context : Nat) :
    Except GSSErrorCodes (String × Nat × Bool) :=
  let status_type := if is_major_code then GSS_C_GSS_CODE else GSS_C_MECH_CODE
  let c_mech_type := match mech_type with
    | none => GSS_C_NO_OID
    | some m => m
  let maj_stat := p.dsMaj error_code status_type c_mech_type message_context
  let min_stat := p.dsMin error_code status_type c_mech_type message_context
  if maj_stat = GSS_S_COMPLETE then
    let msg_ctx_out := p.dsCtx error_code status_type c_mech_type message_context
    .ok (p.dsMsg error_code status_type c_mech_type message_context,
         msg_ctx_out, decide (msg_ctx_out ≠ 0))
  else
    .error ⟨maj_stat, min_stat⟩

/-- The placeholder appended by `get_all_statuses` when a decode step
itself raises: `'issue decoding code: {0}'.format(code)`. -/
def placeholderMsg (code : Nat) : String :=
  "issue decoding code: " ++ toString code

/-- One entry per `display_status` call made by `get_all_statuses`:
the `(code, is_maj, message_context)` arguments of the call. -/
abbrev StatusTrace := List (Nat × Bool × Nat)

/-- The `while cont:` loop of `GSSError.get_all_statuses`, entered with
the context `ctx` from the previous successful step, the messages `res`
collected so far and the provider-call trace `tr` so far.  The loop has
no intrinsic bound — it runs for as long as the provider keeps
returning a truthy continuation — so it is given explicit fuel;
`none` means the fuel ran out before the loop exited. -/
def get_all_statuses_loop (p : StatusProvider) (code : Nat) (is_maj : Bool) :
    Nat → Nat → List String → StatusTrace → Option (List String × StatusTrace)
  | 0, _, _, _ => none
  | fuel + 1, ctx, res, tr =>
    match display_status p code is_maj none ctx with
    | .error _ =>
      some (res ++ [placeholderMsg code], tr ++ [(code, is_maj, ctx)])
    | .ok (msg, ctx2, cont) =>
      if cont then
        get_all_statuses_loop p code is_maj fuel ctx2
          (res ++ [msg]) (tr ++ [(code, is_maj, ctx)])
      else
        some (res ++ [msg], tr ++ [(code, is_maj, ctx)])

/-- `GSSError.get_all_statuses(code, is_maj)`: first `display_status`
call with the default `message_context=0`; on a raise, append the
placeholder and set `cont = False` (the loop is skipped); otherwise
append the message and iterate while `cont`.  Besides the message list
the model returns the trace of `display_status` calls made. -/
def get_all_statuses (p : StatusProvider) (code : Nat) (is_maj : Bool)
    (fuel : Nat) : Option (List String × StatusTrace) :=
  match display_status p code is_maj none 0 with
  | .error _ => some ([placeholderMsg code], [(code, is_maj, 0)])
  | .ok (msg, ctx, cont) =>
    if cont then
      get_all_statuses_loop p code is_maj fuel ctx [msg] [(code, is_maj, 0)]
    else
      some ([msg], [(code, is_maj, 0)])

/-- `GSSError.gen_message`: decodes the major code (kind major) then the
minor code (kind minor) and formats
`"Major ({maj_stat}): {maj_str}, Minor ({min_stat}): {min_str}"`, with
the two status lists rendered through their list `str()` form.  The
trace concatenates the two runs' provider-call traces in order. -/
def gen_message (p : StatusProvider) (maj_code min_code : Nat)
    (fuel : Nat) : Option (String × StatusTrace) :=
  match get_all_statuses p maj_code true fuel,
        get_all_statuses p min_code false fuel with
  | some (maj_statuses, tr1), some (min_statuses, tr2) =>
    some ("Major (" ++ toString maj_code ++ "): " ++ toString maj_statuses ++
          ", Minor (" ++ toString min_code ++ "): " ++ toString min_statuses,
          tr1 ++ tr2)
  | _, _ => none

/-- The `GSSError` exception object: the two codes stored by
`__init__` and the message passed to `super().__init__` (the
`Exception` argument). -/
structure GSSError where
  maj_code : Nat
  min_code : Nat
  message : String
deriving Repr, DecidableEq

/-- `GSSError.__init__(maj_code, min_code)`: stores both codes and
eagerly computes `self.gen_message()`, passing it to the `Exception`
constructor.  Returns the constructed object together with the
provider-call trace incurred by the construction. -/
def GSSError.init (p : StatusProvider) (maj_code min_code : Nat)
    (fuel : Nat) : Option (GSSError × StatusTrace) :=
  match gen_message p maj_code min_code fuel with
  | some (msg, tr) => some (⟨maj_code, min_code, msg⟩, tr)
  | none => none

/-! ### Concrete providers used as witnesses and counterexamples -/

/-- A name provider for which every primitive succeeds. -/
def trivialNameProvider : NameProvider :=
  ⟨fun _ => 0, fun _ => 0, fun _ _ => 0, fun _ _ => 0, fun _ _ => 1,
   fun _ _ => 0, fun _ _ => 0, fun _ => "alice", fun _ => 0⟩

/-- A name provider whose release primitive always fails with
major status `2`, minor status `7`. -/
def failRelProvider : NameProvider :=
  { trivialNameProvider with relMaj := fun _ => 2, relMin := fun _ => 7 }

/-- A status provider that decodes every status in one successful step
(message `"ok"`, next context `0`). -/
def oneShotStatus : StatusProvider :=
  ⟨fun _ _ _ _ => 0, fun _ _ _ _ => 0, fun _ _ _ _ => "ok",
   fun _ _ _ _ => 0⟩

/-- A status provider for which every `gss_display_status` call fails
with major status `2`. -/
def allFailStatus : StatusProvider :=
  { oneShotStatus with dsMaj := fun _ _ _ _ => 2 }

/-- A status provider that always succeeds and always hands back the
continuation context `1`, keeping the continuation flag truthy
forever. -/
def loopForeverStatus : StatusProvider :=
  { oneShotStatus with dsCtx := fun _ _ _ _ => 1 }

/-! ### Derived notions used to state the claims -/

/-- The `status_type` value `display_status` passes for a kind flag. -/
def statusKind (is_major_code : Bool) : Nat :=
  if is_major_code then GSS_C_GSS_CODE else GSS_C_MECH_CODE

/-- The major status the provider returns for a decoder query at
context `c` with the default mechanism. -/
def dsMajAt (p : StatusProvider) (code : Nat) (im : Bool) (c : Nat) : Nat :=
  p.dsMaj code (statusKind im) GSS_C_NO_OID c

/-- The continuation context the provider writes for a decoder query at
context `c` with the default mechanism. -/
def dsCtxAt (p : StatusProvider) (code : Nat) (im : Bool) (c : Nat) : Nat :=
  p.dsCtx code (statusKind im) GSS_C_NO_OID c

/-- Unfolding `display_status` with the default mechanism through the
`dsMajAt` / `dsCtxAt` abbreviations. -/
theorem display_status_none_eq (p : StatusProvider) (code : Nat)
    (im : Bool) (c : Nat) :
    display_status p code im none c =
      if dsMajAt p code im c = GSS_S_COMPLETE then
        .ok (p.dsMsg code (statusKind im) GSS_C_NO_OID c,
             dsCtxAt p code im c, decide (dsCtxAt p code im c ≠ 0))
      else
        .error ⟨dsMajAt p code im c,
                p.dsMin code (statusKind im) GSS_C_NO_OID c⟩ := rfl

/-- The provider's continuation-context chain: starting from context
`c`, the context handed back after `k` further successful decoder
steps. -/
def ctxChainFrom (p : StatusProvider) (code : Nat) (im : Bool) (c : Nat) :
    Nat → Nat
  | 0 => c
  | k + 1 => dsCtxAt p code im (ctxChainFrom p code im c k)

/-- A context at which the decoder stops querying: the provider either
fails there or hands back the zero sentinel as the next context. -/
def stopsAt (p : StatusProvider) (code : Nat) (im : Bool) (c : Nat) : Prop :=
  dsMajAt p code im c ≠ GSS_S_COMPLETE ∨ dsCtxAt p code im c = 0

/-- Termination of `GSSError.get_all_statuses` in the fuel model: some
finite amount of fuel makes the retrieval loop exit. -/
def gasTerminates (p : StatusProvider) (code : Nat) (im : Bool) : Prop :=
  ∃ fuel out, get_all_statuses p code im fuel = some out

/-- Token containment: `t` occurs contiguously inside `s`. -/
def strContainsTok (s t : String) : Prop :=
  ∃ l r, s.data = l ++ (t.data ++ r)

/-- Helper: the characters of a string concatenation. -/
theorem string_data_append (a b : String) :
    (a ++ b).data = a.data ++ b.data := rfl

/-! ### Claims about the name-handle lifecycle -/

/-- Claim C1 (counterexample): with a provider whose release primitive
fails (major `2`, minor `7`), `release_name` on the non-sentinel handle
`⟨5⟩` surfaces the error with the provider's codes but does NOT reset
the handle to the sentinel — it stays at `5` — and a subsequent
destruction invokes the provider release a second time (its provider
call list is `[5]`, not `[]`). -/
theorem release_failure_not_reset_cex :
    (release_name failRelProvider ⟨5⟩).1 = some ⟨2, 7⟩ ∧
    (release_name failRelProvider ⟨5⟩).2.1 = ⟨5⟩ ∧
    ((release_name failRelProvider ⟨5⟩).2.1).raw_name ≠ GSS_C_NO_NAME ∧
    (Name.dealloc failRelProvider
      (release_name failRelProvider ⟨5⟩).2.1).2.2 = [5] := by
  refine ⟨rfl, rfl, by decide, rfl⟩

/-- Claim C1 (amended): when the provider's release primitive fails,
`release_name` (and likewise the destructor on a non-sentinel handle)
surfaces a `GSSError` carrying the provider's codes but raises *before*
the reset line, so the handle is left unchanged (still non-sentinel);
only on provider success is the handle reset to the sentinel.  A
subsequent destruction of the failed-release handle therefore performs
a second provider release. -/
theorem release_failure_leaves_handle (p : NameProvider) (name : Name)
    (hfail : p.relMaj name.raw_name ≠ GSS_S_COMPLETE) :
    release_name p name =
      (some ⟨p.relMaj name.raw_name, p.relMin name.raw_name⟩,
       name, [name.raw_name]) ∧
    (name.raw_name ≠ GSS_C_NO_NAME →
      Name.dealloc p name =
        (some ⟨p.relMaj name.raw_name, p.relMin name.raw_name⟩,
         name, [name.raw_name]) ∧
      (Name.dealloc p name).2.2 ≠ []) ∧
    (∀ n2 : Name, p.relMaj n2.raw_name = GSS_S_COMPLETE →
      release_name p n2 = (none, ⟨GSS_C_NO_NAME⟩, [n2.raw_name])) := by
  refine ⟨by simp [release_name, hfail], fun hn => ⟨?_, ?_⟩, ?_⟩
  · simp [Name.dealloc, hn, hfail]
  · simp [Name.dealloc, hn, hfail]
  · intro n2 hs
    simp [release_name, hs]

/-- Claim C1 (witness): the amended theorem applied at the failing
provider and the concrete handle `⟨5⟩`. -/
theorem release_failure_leaves_handle_witness :
    release_name failRelProvider ⟨5⟩ = (some ⟨2, 7⟩, ⟨5⟩, [5]) := by
  have h := (release_failure_leaves_handle failRelProvider ⟨5⟩ (by decide)).1
  simpa [failRelProvider, trivialNameProvider] using h

/-- Claim C2 (counterexample): with a provider for which release always
succeeds, `release_name` on `⟨5⟩` succeeds and resets the handle, but a
second `release_name` on the resulting handle *does* re-invoke the
provider's release primitive (its provider call list is `[0]`, not
`[]`): `release_name` has no sentinel check, so calling it on an
already-sentinel handle is not a provider-level no-op. -/
theorem release_name_twice_cex :
    (release_name trivialNameProvider ⟨5⟩).1 = none ∧
    (release_name trivialNameProvider ⟨5⟩).2.1 = ⟨GSS_C_NO_NAME⟩ ∧
    (release_name trivialNameProvider
      (release_name trivialNameProvider ⟨5⟩).2.1).2.2 = [0] ∧
    (release_name trivialNameProvider
      (release_name trivialNameProvider ⟨5⟩).2.1).2.2 ≠ [] := by
  refine ⟨rfl, rfl, rfl, by decide⟩

/-- Claim C2 (amended): `release_name` unconditionally invokes the
provider release primitive exactly once per call, even on an
already-sentinel handle; after a successful `release_name`, a second
`release_name` re-invokes the provider on the sentinel value and fails
precisely when the provider reports non-success for the sentinel.  It
is the destructor, not `release_name`, that skips the provider on a
sentinel handle. -/
theorem release_name_unconditional_call (p : NameProvider) (name : Name) :
    (release_name p name).2.2 = [name.raw_name] ∧
    (p.relMaj name.raw_name = GSS_S_COMPLETE →
      (release_name p name).2.1 = ⟨GSS_C_NO_NAME⟩ ∧
      (release_name p (release_name p name).2.1).2.2 = [GSS_C_NO_NAME] ∧
      ((release_name p (release_name p name).2.1).1 = none ↔
        p.relMaj GSS_C_NO_NAME = GSS_S_COMPLETE)) ∧
    Name.dealloc p ⟨GSS_C_NO_NAME⟩ = (none, ⟨GSS_C_NO_NAME⟩, []) := by
  refine ⟨?_, fun hs => ?_, ?_⟩
  · by_cases hc : p.relMaj name.raw_name = GSS_S_COMPLETE <;>
      simp [release_name, hc]
  · have h1 : release_name p name = (none, ⟨GSS_C_NO_NAME⟩, [name.raw_name]) := by
      simp [release_name, hs]
    refine ⟨by simp [h1], ?_, ?_⟩
    · rw [h1]
      by_cases hc : p.relMaj GSS_C_NO_NAME = GSS_S_COMPLETE <;>
        simp [release_name, hc]
    · rw [h1]
      constructor
      · intro hnone
        by_contra hne
        simp [release_name, hne] at hnone
      · intro hz
        simp [release_name, hz]
  · simp [Name.dealloc, GSS_C_NO_NAME]

/-- Claim C2 (witness): the amended theorem applied at the all-success
provider and the concrete handle `⟨5⟩`. -/
theorem release_name_unconditional_call_witness :
    (release_name trivialNameProvider ⟨5⟩).2.2 = [5] := by
  have h := (release_name_unconditional_call trivialNameProvider ⟨5⟩).1
  simpa using h

/-- Claim C3: constructing `Name(other)` from a handle `other` holding a
non-sentinel resource gives a new wrapper holding exactly the raw
resource `other` held, leaves `other` at the `GSS_C_NO_NAME` sentinel,
and destroying the transferred-out `other` afterwards makes no provider
release call (empty provider call list, no error). -/
theorem name_transfer_no_double_free (p : NameProvider) (other : Name)
    (hres : other.raw_name ≠ GSS_C_NO_NAME) :
    ((Name.cinit (some other)).1).raw_name = other.raw_name ∧
    (Name.cinit (some other)).2 = some ⟨GSS_C_NO_NAME⟩ ∧
    (∀ o2 : Name, (Name.cinit (some other)).2 = some o2 →
      Name.dealloc p o2 = (none, o2, [])) := by
  refine ⟨rfl, rfl, ?_⟩
  intro o2 h2
  simp only [Name.cinit, Option.some.injEq] at h2
  subst h2
  simp [Name.dealloc, GSS_C_NO_NAME]

/-- Claim C3 (witness): the theorem applied at the all-success provider
and the concrete non-sentinel handle `⟨5⟩`. -/
theorem name_transfer_no_double_free_witness :
    ((Name.cinit (some ⟨5⟩)).1).raw_name = 5 := by
  have h := (name_transfer_no_double_free trivialNameProvider ⟨5⟩ (by decide)).1
  simpa using h

/-- Claim C8: `compare_name` returns `True` with no provider call when
both arguments are `None`, `False` with no provider call when exactly
one is `None`, and with both present makes exactly one provider compare
call, returning its boolean result on success and raising the
provider's codes otherwise. -/
theorem compare_name_absent_cases (p : NameProvider) :
    compare_name p none none = (.ok true, 0) ∧
    (∀ h1 : Name, compare_name p (some h1) none = (.ok false, 0)) ∧
    (∀ h2 : Name, compare_name p none (some h2) = (.ok false, 0)) ∧
    (∀ h1 h2 : Name,
      compare_name p (some h1) (some h2) =
        ((if p.cmpMaj h1.raw_name h2.raw_name = GSS_S_COMPLETE then
            .ok (decide (p.cmpEq h1.raw_name h2.raw_name ≠ 0))
          else
            .error ⟨p.cmpMaj h1.raw_name h2.raw_name,
                    p.cmpMin h1.raw_name h2.raw_name⟩), 1)) := by
  refine ⟨rfl, fun h1 => rfl, fun h2 => rfl, fun h1 h2 => ?_⟩
  by_cases hc : p.cmpMaj h1.raw_name h2.raw_name = GSS_S_COMPLETE <;>
    simp [compare_name, hc]

/-- Claim C9: `display_name` with `name_type=False` never asks the
provider for a type (NULL type pointer) and every success has an absent
`name_type`; and with `name_type=True`, when the provider reports
success but writes the `GSS_C_NO_OID` sentinel, the call still succeeds
with an absent `name_type` rather than failing. -/
theorem display_name_type_absent (p : NameProvider) (name : Name) :
    (display_name p name false).2 = false ∧
    (∀ r : DisplayNameResult,
      (display_name p name false).1 = .ok r → r.name_type = none) ∧
    (p.dnMaj name.raw_name true = GSS_S_COMPLETE →
      p.dnType name.raw_name = GSS_C_NO_OID →
      (display_name p name true).1 = .ok ⟨p.dnText name.raw_name, none⟩) := by
  refine ⟨?_, ?_, fun hmaj htype => ?_⟩
  · by_cases hc : p.dnMaj name.raw_name false = GSS_S_COMPLETE <;>
      simp [display_name, hc]
  · intro r hr
    by_cases hc : p.dnMaj name.raw_name false = GSS_S_COMPLETE
    · simp [display_name, hc] at hr
      subst hr
      rfl
    · simp [display_name, hc] at hr
  · simp [display_name, hmaj, htype]

/-- Claim C9 (witness): the theorem applied at the all-success provider
(whose display primitive writes the `GSS_C_NO_OID` sentinel) and the
concrete handle `⟨5⟩`. -/
theorem display_name_type_absent_witness :
    (display_name trivialNameProvider ⟨5⟩ true).1 =
      .ok ⟨"alice", none⟩ := by
  have h := (display_name_type_absent trivialNameProvider ⟨5⟩).2.2
    (by decide) (by decide)
  simpa [trivialNameProvider] using h

/-! ### Claims about the status decoder -/

/-- Helper: a successful run of the decoder loop extends both the
accumulated message list and the accumulated trace, and every trace
entry it adds carries the loop's fixed code and kind. -/
theorem get_all_statuses_loop_extends (p : StatusProvider) (code : Nat)
    (is_maj : Bool) :
    ∀ (fuel ctx : Nat) (res : List String) (tr : StatusTrace)
      (L : List String) (tr2 : StatusTrace),
      get_all_statuses_loop p code is_maj fuel ctx res tr = some (L, tr2) →
      (∃ ext, L = res ++ ext) ∧
      (∃ trext, tr2 = tr ++ trext ∧
        ∀ q ∈ trext, q.1 = code ∧ q.2.1 = is_maj) := by
  intro fuel
  induction fuel with
  | zero => exact fun ctx res tr L tr2 h => Option.noConfusion h
  | succ n ih =>
    intro ctx res tr L tr2 h
    unfold get_all_statuses_loop at h
    rcases hds : display_status p code is_maj none ctx with e | ⟨msg, ctx2, cont⟩ <;>
      rw [hds] at h
    · dsimp only at h
      simp only [Option.some.injEq, Prod.mk.injEq] at h
      obtain ⟨hL, hT⟩ := h
      exact ⟨⟨[placeholderMsg code], hL.symm⟩,
        ⟨[(code, is_maj, ctx)], hT.symm, by simp⟩⟩
    · dsimp only at h
      cases cont with
      | false =>
        simp only [if_neg (by simp : ¬(false = true)), Option.some.injEq,
          Prod.mk.injEq] at h
        obtain ⟨hL, hT⟩ := h
        exact ⟨⟨[msg], hL.symm⟩, ⟨[(code, is_maj, ctx)], hT.symm, by simp⟩⟩
      | true =>
        rw [if_pos rfl] at h
        obtain ⟨⟨ext, hL⟩, ⟨trext, hT, htr⟩⟩ := ih ctx2 (res ++ [msg])
          (tr ++ [(code, is_maj, ctx)]) L tr2 h
        refine ⟨⟨msg :: ext, by simpa using hL⟩,
          ⟨(code, is_maj, ctx) :: trext, by simpa using hT, ?_⟩⟩
        intro q hq
        rcases List.mem_cons.mp hq with hq | hq
        · subst hq
          exact ⟨rfl, rfl⟩
        · exact htr q hq

/-- Helper: every successful `get_all_statuses` result has a nonempty
message list, its trace starts with the initial default-context call
`(code, is_maj, 0)`, and every trace entry carries the run's code and
kind. -/
theorem get_all_statuses_shape (p : StatusProvider) (code : Nat)
    (is_maj : Bool) (fuel : Nat) (L : List String) (tr : StatusTrace)
    (h : get_all_statuses p code is_maj fuel = some (L, tr)) :
    1 ≤ L.length ∧ tr.head? = some (code, is_maj, 0) ∧
    ∀ q ∈ tr, q.1 = code ∧ q.2.1 = is_maj := by
  unfold get_all_statuses at h
  rcases hds : display_status p code is_maj none 0 with e | ⟨msg, ctx, cont⟩ <;>
    rw [hds] at h
  · dsimp only at h
    simp only [Option.some.injEq, Prod.mk.injEq] at h
    obtain ⟨hL, hT⟩ := h
    subst hL
    subst hT
    exact ⟨by simp, rfl, by simp⟩
  · dsimp only at h
    cases cont with
    | false =>
      simp only [if_neg (by simp : ¬(false = true)), Option.some.injEq,
        Prod.mk.injEq] at h
      obtain ⟨hL, hT⟩ := h
      subst hL
      subst hT
      exact ⟨by simp, rfl, by simp⟩
    | true =>
      rw [if_pos rfl] at h
      obtain ⟨⟨ext, hL⟩, ⟨trext, hT, htr⟩⟩ :=
        get_all_statuses_loop_extends p code is_maj fuel ctx [msg]
          [(code, is_maj, 0)] L tr h
      subst hL
      subst hT
      refine ⟨by simp, rfl, ?_⟩
      intro q hq
      rcases List.mem_append.mp hq with hq | hq
      · rcases List.mem_singleton.mp hq with rfl
        exact ⟨rfl, rfl⟩
      · exact htr q hq

/-- Helper: any successful value of the `display_status` return shape
has its `Bool` component equal to `decide` of the nonzeroness of its
`Nat` component. -/
theorem ite_ok_cont_shape {c : Prop} [Decidable c] {a : String} {b : Nat}
    {e : GSSErrorCodes} {msg : String} {ctx2 : Nat} {cont : Bool}
    (h : (if c then Except.ok (a, b, decide (b ≠ 0)) else Except.error e) =
      Except.ok (msg, ctx2, cont)) :
    cont = true ↔ ctx2 ≠ 0 := by
  split at h
  · simp only [Except.ok.injEq, Prod.mk.injEq] at h
    obtain ⟨-, hctx, hcont⟩ := h
    subst hctx
    subst hcont
    simp
  · exact Except.noConfusion h

/-- Claim C4: the decoder never propagates a provider failure — a
failing step makes the loop return at once with the fixed placeholder
`"issue decoding code: {code}"` appended in place of the message; every
result the decoder produces has at least one message; and when every
`display_status` call fails the result is exactly the one-element
placeholder list (produced by the single initial call, the loop never
being entered). -/
theorem get_all_statuses_graceful (p : StatusProvider) (code : Nat)
    (im : Bool) (fuel : Nat) :
    (∀ (L : List String) (tr : StatusTrace),
      get_all_statuses p code im fuel = some (L, tr) → 1 ≤ L.length) ∧
    ((∀ ctx, ∃ e, display_status p code im none ctx = .error e) →
      get_all_statuses p code im fuel =
        some ([placeholderMsg code], [(code, im, 0)])) ∧
    (∀ (f2 ctx : Nat) (res : List String) (tr : StatusTrace)
      (e : GSSErrorCodes), display_status p code im none ctx = .error e →
      get_all_statuses_loop p code im (f2 + 1) ctx res tr =
        some (res ++ [placeholderMsg code], tr ++ [(code, im, ctx)])) := by
  refine ⟨?_, ?_, ?_⟩
  · intro L tr h
    exact (get_all_statuses_shape p code im fuel L tr h).1
  · intro hfail
    obtain ⟨e, he⟩ := hfail 0
    unfold get_all_statuses
    rw [he]
  · intro f2 ctx res tr e he
    unfold get_all_statuses_loop
    rw [he]

/-- Claim C4 (witness): the theorem applied to the all-failing provider
at code `13`, kind major, fuel `3`. -/
theorem get_all_statuses_graceful_witness :
    get_all_statuses allFailStatus 13 true 3 =
      some ([placeholderMsg 13], [(13, true, 0)]) :=
  (get_all_statuses_graceful allFailStatus 13 true 3).2.1
    (fun ctx => ⟨⟨2, 0⟩, rfl⟩)

/-- Helper: shifting the start of the continuation-context chain by one
successful step. -/
theorem ctxChainFrom_shift (p : StatusProvider) (code : Nat) (im : Bool)
    (c : Nat) (k : Nat) :
    ctxChainFrom p code im c (k + 1) =
      ctxChainFrom p code im (dsCtxAt p code im c) k := by
  induction k with
  | zero => rfl
  | succ k ih =>
    show dsCtxAt p code im (ctxChainFrom p code im c (k + 1)) =
      dsCtxAt p code im (ctxChainFrom p code im (dsCtxAt p code im c) k)
    rw [ih]

/-- Helper: at a stopping context the decoder loop returns in one step,
for any positive fuel. -/
theorem loop_stops_now (p : StatusProvider) (code : Nat) (im : Bool)
    (f c : Nat) (res : List String) (tr : StatusTrace)
    (hstop : stopsAt p code im c) :
    ∃ out, get_all_statuses_loop p code im (f + 1) c res tr = some out := by
  unfold get_all_statuses_loop
  rw [display_status_none_eq]
  by_cases hm : dsMajAt p code im c = GSS_S_COMPLETE
  · have hz : dsCtxAt p code im c = 0 := by
      rcases hstop with hm2 | hz
      · exact absurd hm hm2
      · exact hz
    rw [if_pos hm]
    dsimp only
    rw [hz]
    refine ⟨(res ++ [p.dsMsg code (statusKind im) GSS_C_NO_OID c],
      tr ++ [(code, im, c)]), ?_⟩
    simp
  · rw [if_neg hm]
    exact ⟨_, rfl⟩

/-- Helper: if the context chain from `c` stops within `n` steps, the
decoder loop started at `c` exits within `n + 1` units of fuel. -/
theorem loop_terminates_of_stop (p : StatusProvider) (code : Nat)
    (im : Bool) :
    ∀ (n c : Nat) (res : List String) (tr : StatusTrace),
      (∃ k, k ≤ n ∧ stopsAt p code im (ctxChainFrom p code im c k)) →
      ∃ out, get_all_statuses_loop p code im (n + 1) c res tr = some out := by
  intro n
  induction n with
  | zero =>
    rintro c res tr ⟨k, hk, hstop⟩
    obtain rfl : k = 0 := Nat.le_zero.mp hk
    exact loop_stops_now p code im 0 c res tr hstop
  | succ n ih =>
    rintro c res tr ⟨k, hk, hstop⟩
    by_cases hs : stopsAt p code im c
    · exact loop_stops_now p code im (n + 1) c res tr hs
    · have hm : dsMajAt p code im c = GSS_S_COMPLETE := by
        by_contra hm2
        exact hs (Or.inl hm2)
      have hc2 : dsCtxAt p code im c ≠ 0 := fun hz => hs (Or.inr hz)
      obtain ⟨j, rfl⟩ : ∃ j, k = j + 1 := by
        cases k with
        | zero => exact absurd hstop hs
        | succ j => exact ⟨j, rfl⟩
      rw [ctxChainFrom_shift] at hstop
      obtain ⟨out, hout⟩ := ih (dsCtxAt p code im c)
        (res ++ [p.dsMsg code (statusKind im) GSS_C_NO_OID c])
        (tr ++ [(code, im, c)])
        ⟨j, Nat.succ_le_succ_iff.mp hk, hstop⟩
      refine ⟨out, ?_⟩
      unfold get_all_statuses_loop
      rw [display_status_none_eq, if_pos hm]
      dsimp only
      rw [if_pos (by simpa using hc2)]
      exact hout

/-- Claim C5 (counterexample helper): against the provider that always
succeeds with next context `1`, the decoder loop consumes all its fuel
without ever exiting. -/
theorem loopForever_loop_none :
    ∀ (fuel ctx : Nat) (res : List String) (tr : StatusTrace),
      get_all_statuses_loop loopForeverStatus 13 true fuel ctx res tr =
        none := by
  intro fuel
  induction fuel with
  | zero => intro ctx res tr; rfl
  | succ n ih =>
    intro ctx res tr
    show get_all_statuses_loop loopForeverStatus 13 true n 1
      (res ++ ["ok"]) (tr ++ [(13, true, ctx)]) = none
    exact ih 1 (res ++ ["ok"]) (tr ++ [(13, true, ctx)])

/-- Claim C5 (counterexample): the claim quantifies over every provider
behavior, but against the provider that always reports success with
next context `1` the retrieval loop never terminates: no amount of fuel
makes `get_all_statuses` return. -/
theorem get_all_statuses_diverges_cex :
    ¬ gasTerminates loopForeverStatus 13 true := by
  rintro ⟨fuel, out, h⟩
  have h0 : get_all_statuses loopForeverStatus 13 true fuel =
      get_all_statuses_loop loopForeverStatus 13 true fuel 1 ["ok"]
        [(13, true, 0)] := rfl
  rw [h0, loopForever_loop_none] at h
  exact Option.noConfusion h

/-- Claim C5 (amended): the retrieval loop terminates for every provider
whose continuation-context chain from `0` eventually reaches a failing
step or the zero sentinel (as every conforming provider's does); it is
not terminating for *every* provider behavior. -/
theorem get_all_statuses_terminates_of_stop (p : StatusProvider)
    (code : Nat) (im : Bool)
    (h : ∃ n, stopsAt p code im (ctxChainFrom p code im 0 n)) :
    gasTerminates p code im := by
  by_cases hm : dsMajAt p code im 0 = GSS_S_COMPLETE
  · by_cases hz : dsCtxAt p code im 0 = 0
    · refine ⟨0, ([p.dsMsg code (statusKind im) GSS_C_NO_OID 0],
        [(code, im, 0)]), ?_⟩
      unfold get_all_statuses
      rw [display_status_none_eq, if_pos hm]
      dsimp only
      rw [hz]
      simp
    · obtain ⟨n, hstop⟩ := h
      obtain ⟨j, rfl⟩ : ∃ j, n = j + 1 := by
        cases n with
        | zero =>
          rcases hstop with ha | hb
          · exact absurd hm ha
          · exact absurd hb hz
        | succ j => exact ⟨j, rfl⟩
      rw [ctxChainFrom_shift] at hstop
      obtain ⟨out, hout⟩ := loop_terminates_of_stop p code im j
        (dsCtxAt p code im 0)
        [p.dsMsg code (statusKind im) GSS_C_NO_OID 0]
        [(code, im, 0)] ⟨j, Nat.le_refl j, hstop⟩
      refine ⟨j + 1, out, ?_⟩
      unfold get_all_statuses
      rw [display_status_none_eq, if_pos hm]
      dsimp only
      rw [if_pos (by simpa using hz)]
      exact hout
  · refine ⟨0, ([placeholderMsg code], [(code, im, 0)]), ?_⟩
    unfold get_all_statuses
    rw [display_status_none_eq, if_neg hm]

/-- Claim C5 (witness): the amended theorem applied to the one-shot
provider, whose chain stops immediately (next context `0` at step
`0`). -/
theorem get_all_statuses_terminates_of_stop_witness :
    gasTerminates oneShotStatus 13 true :=
  get_all_statuses_terminates_of_stop oneShotStatus 13 true ⟨0, Or.inr rfl⟩

/-- Claim C6: every message produced by `gen_message` contains the
literal token `"Major (M)"` and the literal token `"Minor (N)"` with
the numeric codes substituted, and the status list decoded for each of
the two codes is nonempty (at least one decoded or placeholder string
per code). -/
theorem gen_message_tokens (p : StatusProvider) (M N fuel : Nat)
    (msg : String) (tr : StatusTrace)
    (h : gen_message p M N fuel = some (msg, tr)) :
    strContainsTok msg ("Major (" ++ toString M ++ ")") ∧
    strContainsTok msg ("Minor (" ++ toString N ++ ")") ∧
    ∃ (majS minS : List String) (tr1 tr2 : StatusTrace),
      get_all_statuses p M true fuel = some (majS, tr1) ∧
      get_all_statuses p N false fuel = some (minS, tr2) ∧
      1 ≤ majS.length ∧ 1 ≤ minS.length := by
  unfold gen_message at h
  rcases hmaj : get_all_statuses p M true fuel with _ | ⟨majS, tr1⟩ <;>
    rw [hmaj] at h
  · exact Option.noConfusion h
  rcases hmin : get_all_statuses p N false fuel with _ | ⟨minS, tr2⟩ <;>
    rw [hmin] at h
  · exact Option.noConfusion h
  dsimp only at h
  simp only [Option.some.injEq, Prod.mk.injEq] at h
  obtain ⟨hmsg, -⟩ := h
  subst hmsg
  have h1 : ("): " : String).data = (")" : String).data ++ (": " : String).data := rfl
  have h2 : (", Minor (" : String).data =
      (", " : String).data ++ ("Minor (" : String).data := rfl
  refine ⟨?_, ?_, majS, minS, tr1, tr2, rfl, rfl,
    (get_all_statuses_shape p M true fuel majS tr1 hmaj).1,
    (get_all_statuses_shape p N false fuel minS tr2 hmin).1⟩
  · refine ⟨[], (": " ++ toString majS ++ ", Minor (" ++ toString N ++
      "): " ++ toString minS).data, ?_⟩
    simp [string_data_append, h1, h2, List.append_assoc]
  · refine ⟨("Major (" ++ toString M ++ "): " ++ toString majS ++ ", ").data,
      (": " ++ toString minS).data, ?_⟩
    simp [string_data_append, h1, h2, List.append_assoc]

/-- Claim C6 (witness): the theorem applied to the one-shot provider at
major code `13`, minor code `0`: the produced message is
`"Major (13): [ok], Minor (0): [ok]"` and carries both tokens. -/
theorem gen_message_tokens_witness :
    strContainsTok "Major (13): [ok], Minor (0): [ok]"
      ("Major (" ++ toString 13 ++ ")") ∧
    strContainsTok "Major (13): [ok], Minor (0): [ok]"
      ("Minor (" ++ toString 0 ++ ")") :=
  ⟨(gen_message_tokens oneShotStatus 13 0 1
      "Major (13): [ok], Minor (0): [ok]"
      [(13, true, 0), (0, false, 0)] rfl).1,
   (gen_message_tokens oneShotStatus 13 0 1
      "Major (13): [ok], Minor (0): [ok]"
      [(13, true, 0), (0, false, 0)] rfl).2.1⟩

/-- Claim C7: constructing a `GSSError` from `(maj_code, min_code)`
computes the message eagerly in `__init__` (the stored message is the
`gen_message` output), and the provider-call trace of the construction
is exactly one decoder run for the major code followed by one for the
minor code: the trace splits as `tr1 ++ tr2`, `tr1` opens with the
major-kind call at context `0` and contains only major-kind calls for
`maj_code`, and `tr2` opens with the minor-kind call at context `0` and
contains only minor-kind calls for `min_code`. -/
theorem gsserror_init_two_runs (p : StatusProvider) (M N fuel : Nat)
    (e : GSSError) (tr : StatusTrace)
    (h : GSSError.init p M N fuel = some (e, tr)) :
    e.maj_code = M ∧ e.min_code = N ∧
    ∃ (majS minS : List String) (tr1 tr2 : StatusTrace),
      get_all_statuses p M true fuel = some (majS, tr1) ∧
      get_all_statuses p N false fuel = some (minS, tr2) ∧
      tr = tr1 ++ tr2 ∧
      tr1.head? = some (M, true, 0) ∧
      tr2.head? = some (N, false, 0) ∧
      (∀ q ∈ tr1, q.1 = M ∧ q.2.1 = true) ∧
      (∀ q ∈ tr2, q.1 = N ∧ q.2.1 = false) ∧
      e.message =
        "Major (" ++ toString M ++ "): " ++ toString majS ++
        ", Minor (" ++ toString N ++ "): " ++ toString minS := by
  unfold GSSError.init gen_message at h
  rcases hmaj : get_all_statuses p M true fuel with _ | ⟨majS, tr1⟩ <;>
    rw [hmaj] at h
  · exact Option.noConfusion h
  rcases hmin : get_all_statuses p N false fuel with _ | ⟨minS, tr2⟩ <;>
    rw [hmin] at h
  · exact Option.noConfusion h
  dsimp only at h
  simp only [Option.some.injEq, Prod.mk.injEq] at h
  obtain ⟨he, hT⟩ := h
  obtain ⟨-, hhead1, hall1⟩ := get_all_statuses_shape p M true fuel majS tr1 hmaj
  obtain ⟨-, hhead2, hall2⟩ := get_all_statuses_shape p N false fuel minS tr2 hmin
  subst he
  exact ⟨rfl, rfl, majS, minS, tr1, tr2, rfl, rfl, hT.symm,
    hhead1, hhead2, hall1, hall2, rfl⟩


/-- Claim C7 (witness): the theorem applied to the one-shot provider at
major code `13`, minor code `0`, fuel `1`. -/
theorem gsserror_init_two_runs_witness :
    (GSSError.mk 13 0 "Major (13): [ok], Minor (0): [ok]").maj_code = 13 :=
  (gsserror_init_two_runs oneShotStatus 13 0 1
    ⟨13, 0, "Major (13): [ok], Minor (0): [ok]"⟩
    [(13, true, 0), (0, false, 0)] rfl).1

/-- Claim C10: every successful `display_status` return satisfies
`call_again = bool(msg_ctx_out)`: the continuation flag is `true`
exactly when the returned message context is nonzero. -/
theorem display_status_cont_iff_ctx (p : StatusProvider) (code : Nat)
    (im : Bool) (mech : Option Nat) (ctx : Nat) (msg : String)
    (ctx2 : Nat) (cont : Bool)
    (h : display_status p code im mech ctx = .ok (msg, ctx2, cont)) :
    cont = true ↔ ctx2 ≠ 0 := by
  unfold display_status at h
  dsimp only at h
  exact ite_ok_cont_shape h

/-- Claim C10 (witness): the theorem applied to the one-shot provider at
code `13`, kind major, context `0`, whose successful return carries
context `0` and continuation flag `false`. -/
theorem display_status_cont_iff_ctx_witness :
    (false = true ↔ (0 : Nat) ≠ 0) := by
  exact display_status_cont_iff_ctx oneShotStatus 13 true none 0 "ok" 0 false rfl

end PyGssapi
